import Mathlib

/-!
# The episode resolution pipeline of `cbc` (`main.go`)

A shallow embedding of `main.go`: episode discovery (`listRCCEpisodesFromURL`),
extraction of the embedded player configuration and resolution of the media
identifier (`downloadRCCShowURL`, `rccMediaURL`), and the orchestration loop of
`main`.

The program talks to the outside through four libraries: `net/http`,
`goquery`, `encoding/json` and the `m3u8` download engine.  Their answers are
parameters of the model (`Env`); every call the program makes to them is
recorded, in order, in an event log (`World`), which is threaded through the
functions by explicit state passing.
-/

set_option maxRecDepth 100000

namespace CBC

/-! ## Data model -/

/-- An HTML node of a parsed document.  For an element, `classes` are the
tokens of its class attribute and `attrs` its attributes, in source order. -/
inductive Node where
  | element (tag : String) (classes : List String) (attrs : List (String × String))
      (children : List Node)
  | text (data : String)

/-- A parsed document: the children of the document root, in order. -/
abbrev Document := List Node

/-- A goquery selection: the matched nodes, in order. -/
abbrev Selection := List Node

/-- An outgoing HTTP request: method, URL and the headers set by the program. -/
structure Request where
  Method : String
  URL : String
  Header : List (String × String)
  deriving DecidableEq

/-- The part of an `http.Response` the program reads. -/
structure Response where
  StatusCode : Int
  Status : String
  Body : String
  deriving DecidableEq

/-- The fields of `RCCURLJSON` (the validation envelope) that carry the stream
URL and the error code; the other fields are never read by the program. -/
structure RCCURLJSON where
  URL : String
  ErrorCode : Int
  deriving DecidableEq

/-- The fields `appCode` and `idMedia` of `RCCEpisodeJSON`, the configuration
blob embedded in an episode page. -/
structure RCCEpisodeJSON where
  AppCode : String
  IDMedia : String
  deriving DecidableEq

/-- The job type of `m3u8.WJob`; the program only uses `m3u8.ListDL`. -/
inductive WJobType where
  | ListDL
  deriving DecidableEq

/-- The download job `m3u8.WJob` handed to the download engine (`Type_` is its
field `Type`). -/
structure WJob where
  Type_ : WJobType
  URL : String
  SkipConverter : Bool
  DestPath : String
  Filename : String
  deriving DecidableEq

/-- The Go `error` values the pipeline can return. -/
inductive GoError where
  /-- An error returned by `http.Get`. -/
  | network (msg : String)
  /-- The value of `fmt.Errorf("status code error: %d %s", res.StatusCode, res.Status)`. -/
  | statusCode (code : Int) (status : String)
  /-- An error returned by `goquery.NewDocumentFromReader`. -/
  | document (msg : String)
  /-- An error returned by `json.Unmarshal` or by `(*json.Decoder).Decode`. -/
  | json (msg : String)
  deriving DecidableEq

/-- The calls the program makes to the outside, as recorded in the log. -/
inductive Event where
  /-- Call of `http.Get` or `http.DefaultClient.Do` for the request; the request
  is sent unless the library rejects its URL, which `Env.Do` answers by an error. -/
  | request (req : Request)
  /-- Call of `goquery.NewDocumentFromReader` on a response body. -/
  | parseHTML (body : String)
  /-- Call of `json.Unmarshal` on the bytes of a string. -/
  | unmarshal (blob : String)
  /-- Call of `(*json.Decoder).Decode` on a response body. -/
  | decode (body : String)
  /-- Output of `log.Printf("Downloading show from %s\n", u)`. -/
  | logDownloading (u : String)
  /-- Output of `log.Printf("Failed to download %s - %v\n", u, err)`. -/
  | logFailed (u : String) (err : GoError)
  /-- Output of `fmt.Println("->", url)`. -/
  | printArrow (url : String)
  /-- Output of `fmt.Println(url)`. -/
  | println (url : String)
  /-- Output of `log.Println("You need to pass the url of the show to download")`. -/
  | logUsage
  /-- Output of `log.Fatalf("Something went wrong when fetching the URL - %v", err)`. -/
  | logFatal (err : GoError)
  /-- Call of `m3u8.LaunchWorkers`. -/
  | launchWorkers
  /-- The send `m3u8.DlChan <- job`. -/
  | submit (job : WJob)
  /-- Call of `close(m3u8.DlChan)`. -/
  | closeQueue
  /-- Process exit with the given code. -/
  | exit (code : Int)
  deriving DecidableEq

/-- The state threaded through the program: the log of events so far, oldest
first. -/
abbrev World := List Event

/-- The libraries and the network the program runs against.  The answer of
the network may depend on everything that happened before (`World`). -/
structure Env where
  /-- The package variable `Debug`. -/
  Debug : Bool
  /-- Result of `http.DefaultClient.Do`: a response or an error message. -/
  Do : World → Request → Except String Response
  /-- Result of `goquery.NewDocumentFromReader` on a response body. -/
  NewDocumentFromReader : String → Except String Document
  /-- Result of `json.Unmarshal` into a zero `RCCEpisodeJSON`. -/
  Unmarshal : String → Except String RCCEpisodeJSON
  /-- Result of `(*json.Decoder).Decode` into a zero `RCCURLJSON`. -/
  Decode : String → Except String RCCURLJSON

/-- A Go result pair `(string, error)`; `none` is the `nil` error. -/
abbrev StrResult := String × Option GoError

/-- A Go result pair `([]string, error)`. -/
abbrev ListResult := List String × Option GoError

/-! ## Library operations -/

/-- The request of `http.Get(url)`: a GET request on which no header is set. -/
def getRequest (url : String) : Request :=
  { Method := "GET", URL := url, Header := [] }

/-- The call `http.Get(url)`. -/
def httpGet (env : Env) (url : String) (w : World) : Except String Response × World :=
  (env.Do w (getRequest url), w ++ [Event.request (getRequest url)])

/-- The method `http.Header.Set` on an ordered header list: replaces the values
of the key by the single value. -/
def headerSet (h : List (String × String)) (key value : String) : List (String × String) :=
  h.filter (fun kv => kv.1 != key) ++ [(key, value)]

/-- The value of a header, if set: the method `http.Header.Get`. -/
def headerGet (h : List (String × String)) (key : String) : Option String :=
  (h.find? (fun kv => kv.1 == key)).map Prod.snd

mutual
/-- The element nodes of a subtree in document order (pre-order), the node
itself included. -/
def Node.elements : Node → List Node
  | .element t c a ch => .element t c a ch :: Node.elementsList ch
  | .text _ => []
/-- The element nodes of a list of subtrees, in document order. -/
def Node.elementsList : List Node → List Node
  | [] => []
  | n :: ns => n.elements ++ Node.elementsList ns
end

/-- Whether the node is an element carrying the class. -/
def Node.hasClass (cls : String) : Node → Bool
  | .element _ c _ _ => c.contains cls
  | .text _ => false

/-- The attributes of a node (none for a text node). -/
def Node.attrs : Node → List (String × String)
  | .element _ _ a _ => a
  | .text _ => []

/-- The call `doc.Find("." ++ cls)`: the elements of the document carrying the
class, in document order. -/
def Find (doc : Document) (cls : String) : Selection :=
  (Node.elementsList doc).filter (Node.hasClass cls)

/-- The method `First` of a selection: the selection reduced to its first node. -/
def First (s : Selection) : Selection := s.take 1

/-- The method `Attr` of a selection: the value of the attribute on the first
node of the selection and whether it exists; `("", false)` otherwise. -/
def Attr (s : Selection) (name : String) : String × Bool :=
  match s with
  | [] => ("", false)
  | n :: _ =>
    match n.attrs.find? (fun kv => kv.1 == name) with
    | some kv => (kv.2, true)
    | none => ("", false)

/-- The method `Each` of a selection: runs the callback on every node in order,
as a one-node selection together with its index; `σ` is the state of the
variables the callback captures. -/
def EachFrom {σ : Type} (f : Nat → Selection → σ → σ) : Nat → Selection → σ → σ
  | _, [], st => st
  | i, n :: ns, st => EachFrom f (i + 1) ns (f i [n] st)

/-- The method `Each`, starting at index 0. -/
def Each {σ : Type} (s : Selection) (f : Nat → Selection → σ → σ) (st : σ) : σ :=
  EachFrom f 0 s st

/-! ## The program -/

/-- The marker class of the episode links on a show page. -/
def episodeMarker : String := "medianet-content"

/-- The marker class of the node carrying the player configuration. -/
def consoleMarker : String := "audio-video-console"

/-- The validation endpoint that `rccMediaURL` queries. -/
def validationEndpoint : String :=
  "https://api.radio-canada.ca/validationMedia/v1/Validation.html"

/-- The query string of the format string of `rccMediaURL`, up to the verb `%s`. -/
def validationQuery : String :=
  "?connectionType=broadband&output=json&multibitrate=true&deviceType=ipad&appCode=medianet&idMedia="

/-- The URL built by `fmt.Sprintf` in `rccMediaURL`: the format string with the
identifier in place of the final `%s`. -/
def rccRequestURL (id : String) : String :=
  validationEndpoint ++ validationQuery ++ id

/-- The function `rccMediaURL` of `main.go`. -/
def rccMediaURL (env : Env) (id : String) (w : World) : StrResult × World :=
  let url := rccRequestURL id
  match httpGet env url w with
  | (.error e, w1) => (("", some (.network e)), w1)
  | (.ok res, w1) =>
    if res.StatusCode ≠ 200 then
      (("", some (.statusCode res.StatusCode res.Status)), w1)
    else
      match env.Decode res.Body with
      | .error e => (("", some (.json e)), w1 ++ [Event.decode res.Body, Event.println url])
      | .ok data => ((data.URL, none), w1 ++ [Event.decode res.Body])

/-- The function `downloadRCCShowURL` of `main.go`. -/
def downloadRCCShowURL (env : Env) (u : String) (w : World) : StrResult × World :=
  let w0 := if env.Debug then w ++ [Event.logDownloading u] else w
  match httpGet env u w0 with
  | (.error e, w1) => (("", some (.network e)), w1)
  | (.ok res, w1) =>
    if res.StatusCode ≠ 200 then
      (("", some (.statusCode res.StatusCode res.Status)), w1)
    else
      match env.NewDocumentFromReader res.Body with
      | .error e => (("", some (.document e)), w1 ++ [Event.parseHTML res.Body])
      | .ok doc =>
        let s := First (Find doc consoleMarker)
        let val := (Attr s "data-console-info").1
        match env.Unmarshal val with
        | .error e =>
          (("", some (.json e)), w1 ++ [Event.parseHTML res.Body, Event.unmarshal val])
        | .ok data =>
          rccMediaURL env data.IDMedia (w1 ++ [Event.parseHTML res.Body, Event.unmarshal val])

/-- The callback passed to `Each` in `listRCCEpisodesFromURL`; the state is the
pair of the captured variables `links` and `link`. -/
def episodeLinkStep (_i : Nat) (s : Selection) (st : List String × String) :
    List String × String :=
  let link := (Attr s "href").1
  if link.length > 0 then (st.1 ++ [link], link) else (st.1, link)

/-- The function `listRCCEpisodesFromURL` of `main.go`. -/
def listRCCEpisodesFromURL (env : Env) (url : String) (w : World) : ListResult × World :=
  match httpGet env url w with
  | (.error e, w1) => (([], some (.network e)), w1)
  | (.ok res, w1) =>
    if res.StatusCode ≠ 200 then
      (([], some (.statusCode res.StatusCode res.Status)), w1)
    else
      match env.NewDocumentFromReader res.Body with
      | .error e => (([], some (.document e)), w1 ++ [Event.parseHTML res.Body])
      | .ok doc =>
        let st := Each (Find doc episodeMarker) episodeLinkStep (([] : List String), "")
        ((st.1, none), w1 ++ [Event.parseHTML res.Body])

/-- The identification string that `query` sets as `User-Agent`. -/
def mobileUserAgent : String :=
  "Mozilla/5.0 (iPhone; U; CPU iPhone OS 5_0 like Mac OS X; en-us) AppleWebKit/532.9 (KHTML, like Gecko) Version/5.0.5 Mobile/8A293 Safari/6531.22.7"

/-- The request that `query` builds: a GET request with the two headers set. -/
def queryRequest (url : String) : Request :=
  { Method := "GET", URL := url,
    Header := headerSet (headerSet [] "User-Agent" mobileUserAgent)
      "Content-Type" "application/json" }

/-- The function `query` of `main.go` (for a URL that `http.NewRequest` accepts). -/
def query (env : Env) (url : String) (w : World) : Except String Response × World :=
  (env.Do w (queryRequest url), w ++ [Event.request (queryRequest url)])

/-- How a loop body ends: falls through to the next iteration, or breaks. -/
inductive Flow where
  | next
  | brk
  deriving DecidableEq

/-- A Go `for _, u := range urls` loop over a state, with `break`. -/
def rangeLoop {σ : Type} (body : String → σ → Flow × σ) : List String → σ → σ
  | [], st => st
  | u :: rest, st =>
    match body u st with
    | (.brk, st1) => st1
    | (.next, st1) => rangeLoop body rest st1

/-- The job that `main` builds for a resolved URL. -/
def mkJob (url : String) : WJob :=
  { Type_ := .ListDL, URL := url, SkipConverter := false, DestPath := ".", Filename := "test" }

/-- The body of the loop of `main`; the state is the variable `url` declared
before the loop, and the log. -/
def mainLoopBody (env : Env) (u : String) (st : String × World) : Flow × (String × World) :=
  let r := downloadRCCShowURL env u st.2
  let url := r.1.1
  let w1 := match r.1.2 with
    | some err => r.2 ++ [Event.logFailed u err]
    | none => r.2
  let w2 := w1 ++ [Event.printArrow url]
  let job := mkJob url
  let w3 := w2 ++ [Event.submit job]
  -- TODO: set filename and not break
  (.brk, (url, w3))

/-- The loop of `main` over the discovered episode URLs. -/
def mainLoop (env : Env) (urls : List String) (w : World) : World :=
  (rangeLoop (mainLoopBody env) urls ("", w)).2

/-- The function `main` of `main.go`, on the argument vector `os.Args`.  The
sleep before the queue is closed and the wait on the workers leave no event. -/
def main (env : Env) (args : List String) (w : World) : World :=
  if args.length < 2 then
    w ++ [Event.logUsage, Event.exit 1]
  else
    let passedURL := args.getD 1 ""
    match listRCCEpisodesFromURL env passedURL w with
    | ((_, some err), w1) => w1 ++ [Event.logFatal err, Event.exit 1]
    | ((urls, none), w1) =>
      let w2 := w1 ++ [Event.launchWorkers]
      let w3 := mainLoop env urls w2
      w3 ++ [Event.closeQueue]

/-! ## Observations on the log -/

/-- The jobs submitted to the download engine, in order. -/
def jobs : World → List WJob
  | [] => []
  | .submit j :: w => j :: jobs w
  | _ :: w => jobs w

/-- The requests sent, in order. -/
def requests : World → List Request
  | [] => []
  | .request r :: w => r :: requests w
  | _ :: w => requests w

/-! ## Table-driven environments for concrete runs -/

/-- An environment given by tables: the response of each URL, the document of
each body, the configuration of each blob and the envelope of each body.
Whatever is not in a table is answered with an error. -/
def tableEnv (pages : List (String × Response)) (docs : List (String × Document))
    (blobs : List (String × RCCEpisodeJSON)) (envelopes : List (String × RCCURLJSON)) : Env :=
  { Debug := false
    Do := fun _ req =>
      match pages.lookup req.URL with
      | some res => .ok res
      | none => .error "no such host"
    NewDocumentFromReader := fun body =>
      match docs.lookup body with
      | some doc => .ok doc
      | none => .error "read error"
    Unmarshal := fun blob =>
      match blobs.lookup blob with
      | some cfg => .ok cfg
      | none => .error "unexpected end of JSON input"
    Decode := fun body =>
      match envelopes.lookup body with
      | some d => .ok d
      | none => .error "invalid character" }

/-- An anchor carrying the episode marker and the link. -/
def episodeAnchor (href : String) : Node :=
  .element "a" ["medianet-content"] [("href", href)] [.text "episode"]

/-- A node carrying the console marker and the configuration blob. -/
def consoleNode (blob : String) : Node :=
  .element "div" ["audio-video-console"] [("data-console-info", blob)] []

/-- The show page of the end-to-end scenario: three episode anchors. -/
def showDoc : Document :=
  [.element "html" [] []
    [.element "body" [] []
      [episodeAnchor "/ep/1", .text " ", episodeAnchor "/ep/2", episodeAnchor "/ep/3"]]]

/-- The stream URL of the validation fixture. -/
def streamURL : String := "https://stream.example/x.m3u8"

/-- The validation fixture of the spec,
the body `{"url":"https://stream.example/x.m3u8","errorCode":0}`. -/
def okBody : String := "\x7b\"url\":\"https://stream.example/x.m3u8\",\"errorCode\":0\x7d"

/-- The end-to-end scenario: episode 1 carries the configuration
`{"idMedia":"123"}`, episode 2 has no marker node, episode 3 carries
`{"idMedia":"456"}`; both identifiers validate to the stream URL. -/
def scenarioEnv : Env :=
  tableEnv
    [("https://show.example/", ⟨200, "200 OK", "show"⟩),
     ("/ep/1", ⟨200, "200 OK", "ep1"⟩),
     ("/ep/2", ⟨200, "200 OK", "ep2"⟩),
     ("/ep/3", ⟨200, "200 OK", "ep3"⟩),
     (rccRequestURL "123", ⟨200, "200 OK", okBody⟩),
     (rccRequestURL "456", ⟨200, "200 OK", okBody⟩)]
    [("show", showDoc),
     ("ep1", [consoleNode "\x7b\"idMedia\":\"123\"\x7d"]),
     ("ep2", [.element "p" [] [] []]),
     ("ep3", [consoleNode "\x7b\"idMedia\":\"456\"\x7d"])]
    [("\x7b\"idMedia\":\"123\"\x7d", ⟨"", "123"⟩),
     ("\x7b\"idMedia\":\"456\"\x7d", ⟨"", "456"⟩)]
    [(okBody, ⟨streamURL, 0⟩)]

/-- The GET of `/ep/1` answers 200 with a player configuration for the
identifier 123, and the validation API answers 200 with an envelope that
carries a url together with the error code 1. -/
def rejectedEnv : Env :=
  tableEnv
    [("/ep/1", ⟨200, "200 OK", "ep1"⟩),
     (rccRequestURL "123", ⟨200, "200 OK", "rejected"⟩)]
    [("ep1", [consoleNode "\x7b\"idMedia\":\"123\"\x7d"])]
    [("\x7b\"idMedia\":\"123\"\x7d", ⟨"", "123"⟩)]
    [("rejected", ⟨streamURL, 1⟩)]

/-- A show page whose marker elements carry, in order: a link, no href, an
empty href, a link, no href. -/
def sparseDoc : Document :=
  [.element "body" [] []
    [episodeAnchor "/ep/1",
     .element "a" ["medianet-content"] [("title", "x")] [],
     .element "a" ["medianet-content"] [("href", "")] [],
     .element "div" ["row", "medianet-content"] [("id", "e2"), ("href", "/ep/2")] [],
     .element "a" ["other"] [("href", "/about")] [],
     .element "a" ["medianet-content"] [] []]]

/-- An environment serving `sparseDoc` as the show page. -/
def sparseEnv : Env :=
  tableEnv [("https://show.example/", ⟨200, "200 OK", "show"⟩)] [("show", sparseDoc)] [] []

/-- The episode page carries the blob `{}`, which unmarshals to a configuration
with an empty `idMedia`; the validation API answers the empty identifier with the
validation fixture. -/
def emptyIdEnv : Env :=
  tableEnv
    [("/ep/1", ⟨200, "200 OK", "ep1"⟩),
     (rccRequestURL "", ⟨200, "200 OK", okBody⟩)]
    [("ep1", [consoleNode "\x7b\x7d"])]
    [("\x7b\x7d", ⟨"", ""⟩)]
    [(okBody, ⟨streamURL, 0⟩)]

/-- The validation API answers the identifier 123 with the status 201 and the
validation fixture as body. -/
def createdEnv : Env :=
  tableEnv
    [("https://show.example/", ⟨201, "201 Created", "show"⟩),
     ("/ep/1", ⟨204, "204 No Content", "ep1"⟩),
     (rccRequestURL "123", ⟨201, "201 Created", okBody⟩)]
    [("show", showDoc), ("ep1", [consoleNode "\x7b\"idMedia\":\"123\"\x7d"])]
    [("\x7b\"idMedia\":\"123\"\x7d", ⟨"", "123"⟩)]
    [(okBody, ⟨streamURL, 0⟩)]

/-! ## Properties stated by the specification -/

/-- The success condition of the specification on a validation envelope: the
error code is zero and the resolved URL is non-empty. -/
def RCCURLJSON.success (d : RCCURLJSON) : Prop :=
  d.ErrorCode = 0 ∧ d.URL ≠ ""

/-- The invariant of the specification on a submitted URL: it was produced by
a successful validation response for a non-empty media identifier. -/
def ValidatedStream (env : Env) (url : String) : Prop :=
  ∃ (w : World) (id : String) (res : Response) (d : RCCURLJSON),
    id ≠ "" ∧ env.Do w (getRequest (rccRequestURL id)) = .ok res ∧ res.StatusCode = 200 ∧
    env.Decode res.Body = .ok d ∧ d.success ∧ d.URL = url

/-! ## Auxiliary definitions of the statements -/

/-- The log on entry to the fetch of `downloadRCCShowURL`, after the debug line. -/
def debugLog (env : Env) (u : String) (w : World) : World :=
  if env.Debug then w ++ [Event.logDownloading u] else w

/-- The blob that `downloadRCCShowURL` reads from a document. -/
def consoleInfo (doc : Document) : String :=
  (Attr (First (Find doc consoleMarker)) "data-console-info").1

/-- The value of the link attribute of a node, if present. -/
def hrefOf (n : Node) : Option String :=
  (n.attrs.find? (fun kv => kv.1 == "href")).map Prod.snd

/-- The result of discovery in the words of the specification: the href
values of the marker elements, in order, with those that are missing or empty
removed. -/
def episodeLinks (sel : Selection) : List String :=
  sel.filterMap (fun n =>
    match hrefOf n with
    | some v => if v = "" then none else some v
    | none => none)

/-- The environment in which the HTML parser answers with the given document;
the network and the JSON decoders are those of `env`. -/
def withDocument (env : Env) (doc : Document) : Env :=
  { env with NewDocumentFromReader := fun _ => .ok doc }

/-- What `downloadRCCShowURL` does after reading the blob of a page with status
200: the parse error of the blob, or the call of the resolver on its `idMedia`. -/
def resolveBlob (env : Env) (u : String) (w : World) (page : Response) (blob : String) :
    StrResult × World :=
  match env.Unmarshal blob with
  | .error e =>
    (("", some (.json e)),
      debugLog env u w ++ [Event.request (getRequest u)]
        ++ [Event.parseHTML page.Body, Event.unmarshal blob])
  | .ok cfg =>
    rccMediaURL env cfg.IDMedia
      (debugLog env u w ++ [Event.request (getRequest u)]
        ++ [Event.parseHTML page.Body, Event.unmarshal blob])

/-- An episode page with a single console node, carrying the configuration
`{"idMedia":"123"}`. -/
def oneConsoleDoc : Document :=
  [.element "body" [] [] [consoleNode "\x7b\"idMedia\":\"123\"\x7d"]]

/-- An episode page whose first console node carries the same configuration
and encloses a console node for the identifier 456; a console node whose blob is
not JSON follows. -/
def manyConsoleDoc : Document :=
  [.element "body" [] []
    [.text "player",
     .element "div" ["audio-video-console"] [("data-console-info", "\x7b\"idMedia\":\"123\"\x7d")]
       [consoleNode "\x7b\"idMedia\":\"456\"\x7d"],
     consoleNode "not json"]]

/-! ## Lemmas on the log -/

theorem jobs_append (w v : World) : jobs (w ++ v) = jobs w ++ jobs v := by
  induction w with
  | nil => rfl
  | cons e w ih => cases e <;> simp [jobs, ih]

theorem requests_append (w v : World) : requests (w ++ v) = requests w ++ requests v := by
  induction w with
  | nil => rfl
  | cons e w ih => cases e <;> simp [requests, ih]

/-! ## The paths through the three fetch steps -/

theorem jobs_debugLog (env : Env) (u : String) (w : World) :
    jobs (debugLog env u w) = jobs w := by
  unfold debugLog; split <;> simp [jobs_append, jobs]

theorem rccMediaURL_network (env : Env) (id : String) (w : World) (e : String)
    (hdo : env.Do w (getRequest (rccRequestURL id)) = .error e) :
    rccMediaURL env id w
      = (("", some (.network e)), w ++ [Event.request (getRequest (rccRequestURL id))]) := by
  simp [rccMediaURL, httpGet, hdo]

theorem rccMediaURL_status (env : Env) (id : String) (w : World) (res : Response)
    (hdo : env.Do w (getRequest (rccRequestURL id)) = .ok res) (hs : res.StatusCode ≠ 200) :
    rccMediaURL env id w
      = (("", some (.statusCode res.StatusCode res.Status)),
          w ++ [Event.request (getRequest (rccRequestURL id))]) := by
  simp [rccMediaURL, httpGet, hdo, hs]

theorem rccMediaURL_undecoded (env : Env) (id : String) (w : World) (res : Response)
    (e : String) (hdo : env.Do w (getRequest (rccRequestURL id)) = .ok res)
    (hs : res.StatusCode = 200) (hdec : env.Decode res.Body = .error e) :
    rccMediaURL env id w
      = (("", some (.json e)),
          w ++ [Event.request (getRequest (rccRequestURL id))]
            ++ [Event.decode res.Body, Event.println (rccRequestURL id)]) := by
  simp [rccMediaURL, httpGet, hdo, hs, hdec]

theorem rccMediaURL_decoded (env : Env) (id : String) (w : World) (res : Response)
    (d : RCCURLJSON) (hdo : env.Do w (getRequest (rccRequestURL id)) = .ok res)
    (hs : res.StatusCode = 200) (hdec : env.Decode res.Body = .ok d) :
    rccMediaURL env id w
      = ((d.URL, none),
          w ++ [Event.request (getRequest (rccRequestURL id))] ++ [Event.decode res.Body]) := by
  simp [rccMediaURL, httpGet, hdo, hs, hdec]

theorem downloadRCCShowURL_network (env : Env) (u : String) (w : World) (e : String)
    (hdo : env.Do (debugLog env u w) (getRequest u) = .error e) :
    downloadRCCShowURL env u w
      = (("", some (.network e)), debugLog env u w ++ [Event.request (getRequest u)]) := by
  unfold debugLog at hdo
  simp [downloadRCCShowURL, httpGet, hdo, debugLog]

theorem downloadRCCShowURL_status (env : Env) (u : String) (w : World) (res : Response)
    (hdo : env.Do (debugLog env u w) (getRequest u) = .ok res) (hs : res.StatusCode ≠ 200) :
    downloadRCCShowURL env u w
      = (("", some (.statusCode res.StatusCode res.Status)),
          debugLog env u w ++ [Event.request (getRequest u)]) := by
  unfold debugLog at hdo
  simp [downloadRCCShowURL, httpGet, hdo, hs, debugLog]

theorem downloadRCCShowURL_unparsed (env : Env) (u : String) (w : World) (res : Response)
    (e : String) (hdo : env.Do (debugLog env u w) (getRequest u) = .ok res)
    (hs : res.StatusCode = 200) (hdoc : env.NewDocumentFromReader res.Body = .error e) :
    downloadRCCShowURL env u w
      = (("", some (.document e)),
          debugLog env u w ++ [Event.request (getRequest u)] ++ [Event.parseHTML res.Body]) := by
  unfold debugLog at hdo
  simp [downloadRCCShowURL, httpGet, hdo, hs, hdoc, debugLog]

theorem downloadRCCShowURL_undecoded (env : Env) (u : String) (w : World) (res : Response)
    (doc : Document) (e : String)
    (hdo : env.Do (debugLog env u w) (getRequest u) = .ok res)
    (hs : res.StatusCode = 200) (hdoc : env.NewDocumentFromReader res.Body = .ok doc)
    (hcfg : env.Unmarshal (consoleInfo doc) = .error e) :
    downloadRCCShowURL env u w
      = (("", some (.json e)),
          debugLog env u w ++ [Event.request (getRequest u)]
            ++ [Event.parseHTML res.Body, Event.unmarshal (consoleInfo doc)]) := by
  unfold debugLog at hdo
  unfold consoleInfo at hcfg
  simp [downloadRCCShowURL, httpGet, hdo, hs, hdoc, hcfg, debugLog, consoleInfo]

theorem downloadRCCShowURL_resolves (env : Env) (u : String) (w : World) (res : Response)
    (doc : Document) (cfg : RCCEpisodeJSON)
    (hdo : env.Do (debugLog env u w) (getRequest u) = .ok res)
    (hs : res.StatusCode = 200) (hdoc : env.NewDocumentFromReader res.Body = .ok doc)
    (hcfg : env.Unmarshal (consoleInfo doc) = .ok cfg) :
    downloadRCCShowURL env u w
      = rccMediaURL env cfg.IDMedia
          (debugLog env u w ++ [Event.request (getRequest u)]
            ++ [Event.parseHTML res.Body, Event.unmarshal (consoleInfo doc)]) := by
  unfold debugLog at hdo
  unfold consoleInfo at hcfg
  simp [downloadRCCShowURL, httpGet, hdo, hs, hdoc, hcfg, debugLog, consoleInfo]

theorem listRCCEpisodesFromURL_network (env : Env) (url : String) (w : World) (e : String)
    (hdo : env.Do w (getRequest url) = .error e) :
    listRCCEpisodesFromURL env url w
      = (([], some (.network e)), w ++ [Event.request (getRequest url)]) := by
  simp [listRCCEpisodesFromURL, httpGet, hdo]

theorem listRCCEpisodesFromURL_status (env : Env) (url : String) (w : World) (res : Response)
    (hdo : env.Do w (getRequest url) = .ok res) (hs : res.StatusCode ≠ 200) :
    listRCCEpisodesFromURL env url w
      = (([], some (.statusCode res.StatusCode res.Status)),
          w ++ [Event.request (getRequest url)]) := by
  simp [listRCCEpisodesFromURL, httpGet, hdo, hs]

theorem listRCCEpisodesFromURL_unparsed (env : Env) (url : String) (w : World)
    (res : Response) (e : String) (hdo : env.Do w (getRequest url) = .ok res)
    (hs : res.StatusCode = 200) (hdoc : env.NewDocumentFromReader res.Body = .error e) :
    listRCCEpisodesFromURL env url w
      = (([], some (.document e)),
          w ++ [Event.request (getRequest url)] ++ [Event.parseHTML res.Body]) := by
  simp [listRCCEpisodesFromURL, httpGet, hdo, hs, hdoc]

theorem listRCCEpisodesFromURL_parsed (env : Env) (url : String) (w : World)
    (res : Response) (doc : Document) (hdo : env.Do w (getRequest url) = .ok res)
    (hs : res.StatusCode = 200) (hdoc : env.NewDocumentFromReader res.Body = .ok doc) :
    listRCCEpisodesFromURL env url w
      = (((Each (Find doc episodeMarker) episodeLinkStep (([] : List String), "")).1, none),
          w ++ [Event.request (getRequest url)] ++ [Event.parseHTML res.Body]) := by
  simp [listRCCEpisodesFromURL, httpGet, hdo, hs, hdoc]

/-- What a run of `rccMediaURL` without error went through. -/
theorem rccMediaURL_ok (env : Env) (id : String) (w : World)
    (h : (rccMediaURL env id w).1.2 = none) :
    ∃ (res : Response) (d : RCCURLJSON),
      env.Do w (getRequest (rccRequestURL id)) = .ok res ∧ res.StatusCode = 200 ∧
      env.Decode res.Body = .ok d ∧ (rccMediaURL env id w).1.1 = d.URL := by
  cases hdo : env.Do w (getRequest (rccRequestURL id)) with
  | error e => rw [rccMediaURL_network env id w e hdo] at h; simp at h
  | ok res =>
    by_cases hs : res.StatusCode = 200
    · cases hdec : env.Decode res.Body with
      | error e => rw [rccMediaURL_undecoded env id w res e hdo hs hdec] at h; simp at h
      | ok d => exact ⟨res, d, rfl, hs, hdec, by rw [rccMediaURL_decoded env id w res d hdo hs hdec]⟩
    · rw [rccMediaURL_status env id w res hdo hs] at h; simp at h

/-- The function `rccMediaURL` submits no job. -/
theorem jobs_rccMediaURL (env : Env) (id : String) (w : World) :
    jobs (rccMediaURL env id w).2 = jobs w := by
  cases hdo : env.Do w (getRequest (rccRequestURL id)) with
  | error e => rw [rccMediaURL_network env id w e hdo]; simp [jobs_append, jobs]
  | ok res =>
    by_cases hs : res.StatusCode = 200
    · cases hdec : env.Decode res.Body with
      | error e => rw [rccMediaURL_undecoded env id w res e hdo hs hdec]; simp [jobs_append, jobs]
      | ok d => rw [rccMediaURL_decoded env id w res d hdo hs hdec]; simp [jobs_append, jobs]
    · rw [rccMediaURL_status env id w res hdo hs]; simp [jobs_append, jobs]

/-- The function `downloadRCCShowURL` submits no job. -/
theorem jobs_downloadRCCShowURL (env : Env) (u : String) (w : World) :
    jobs (downloadRCCShowURL env u w).2 = jobs w := by
  have hw := jobs_debugLog env u w
  cases hdo : env.Do (debugLog env u w) (getRequest u) with
  | error e => rw [downloadRCCShowURL_network env u w e hdo]; simp [jobs_append, jobs, hw]
  | ok res =>
    by_cases hs : res.StatusCode = 200
    · cases hdoc : env.NewDocumentFromReader res.Body with
      | error e =>
        rw [downloadRCCShowURL_unparsed env u w res e hdo hs hdoc]; simp [jobs_append, jobs, hw]
      | ok doc =>
        cases hcfg : env.Unmarshal (consoleInfo doc) with
        | error e =>
          rw [downloadRCCShowURL_undecoded env u w res doc e hdo hs hdoc hcfg]
          simp [jobs_append, jobs, hw]
        | ok cfg =>
          rw [downloadRCCShowURL_resolves env u w res doc cfg hdo hs hdoc hcfg, jobs_rccMediaURL]
          simp [jobs_append, jobs, hw]
    · rw [downloadRCCShowURL_status env u w res hdo hs]; simp [jobs_append, jobs, hw]

/-- What a run of `downloadRCCShowURL` without error went through. -/
theorem downloadRCCShowURL_ok (env : Env) (u : String) (w : World)
    (h : (downloadRCCShowURL env u w).1.2 = none) :
    ∃ (w1 : World) (page : Response) (doc : Document) (cfg : RCCEpisodeJSON)
      (res : Response) (d : RCCURLJSON),
      env.Do (debugLog env u w) (getRequest u) = .ok page ∧ page.StatusCode = 200 ∧
      env.NewDocumentFromReader page.Body = .ok doc ∧
      env.Unmarshal (consoleInfo doc) = .ok cfg ∧
      env.Do w1 (getRequest (rccRequestURL cfg.IDMedia)) = .ok res ∧ res.StatusCode = 200 ∧
      env.Decode res.Body = .ok d ∧ (downloadRCCShowURL env u w).1.1 = d.URL := by
  cases hdo : env.Do (debugLog env u w) (getRequest u) with
  | error e => rw [downloadRCCShowURL_network env u w e hdo] at h; simp at h
  | ok page =>
    by_cases hs : page.StatusCode = 200
    · cases hdoc : env.NewDocumentFromReader page.Body with
      | error e => rw [downloadRCCShowURL_unparsed env u w page e hdo hs hdoc] at h; simp at h
      | ok doc =>
        cases hcfg : env.Unmarshal (consoleInfo doc) with
        | error e =>
          rw [downloadRCCShowURL_undecoded env u w page doc e hdo hs hdoc hcfg] at h; simp at h
        | ok cfg =>
          rw [downloadRCCShowURL_resolves env u w page doc cfg hdo hs hdoc hcfg] at h ⊢
          obtain ⟨res, d, h1, h2, h3, h4⟩ := rccMediaURL_ok env cfg.IDMedia _ h
          exact ⟨_, page, doc, cfg, res, d, rfl, hs, hdoc, hcfg, h1, h2, h3, h4⟩
    · rw [downloadRCCShowURL_status env u w page hdo hs] at h; simp at h

/-! ## Episode discovery -/

theorem string_length_pos (s : String) : s.length > 0 ↔ s ≠ "" := by
  constructor
  · intro h he
    rw [he] at h
    exact absurd h (by decide)
  · intro h
    rcases s with ⟨l⟩
    cases l with
    | nil => exact absurd rfl h
    | cons c cs => simp [String.length]

theorem Attr_href (n : Node) : (Attr [n] "href").1 = (hrefOf n).getD "" := by
  show (match n.attrs.find? (fun (kv : String × String) => kv.1 == "href") with
    | some kv => (kv.2, true)
    | none => (("", false) : String × Bool)).1 = _
  unfold hrefOf
  cases List.find? (fun kv => kv.1 == "href") n.attrs <;> rfl

theorem episodeLinks_cons (n : Node) (ns : Selection) :
    episodeLinks (n :: ns) = episodeLinks [n] ++ episodeLinks ns := by
  unfold episodeLinks
  rw [← List.filterMap_append]
  rfl

theorem episodeLinkStep_single (i : Nat) (n : Node) (acc : List String) (l : String) :
    episodeLinkStep i [n] (acc, l) = (acc ++ episodeLinks [n], (hrefOf n).getD "") := by
  unfold episodeLinkStep
  simp only [Attr_href]
  cases hn : hrefOf n with
  | none =>
    have h0 : ¬ (("" : String).length > 0) := by decide
    simp [h0, episodeLinks, hn]
  | some v =>
    by_cases hv : v = ""
    · have h0 : ¬ (v.length > 0) := by rw [hv]; decide
      simp [h0, episodeLinks, hn, hv]
    · have h1 : v.length > 0 := (string_length_pos v).2 hv
      simp [h1, episodeLinks, hn, hv]

theorem EachFrom_episodeLinkStep (sel : Selection) (i : Nat) (acc : List String) (l : String) :
    (EachFrom episodeLinkStep i sel (acc, l)).1 = acc ++ episodeLinks sel := by
  induction sel generalizing i acc l with
  | nil => simp [EachFrom, episodeLinks]
  | cons n ns ih =>
    show (EachFrom episodeLinkStep (i + 1) ns (episodeLinkStep i [n] (acc, l))).1 = _
    rw [episodeLinkStep_single, ih, episodeLinks_cons n ns, List.append_assoc]

theorem Each_episodeLinkStep (sel : Selection) :
    (Each sel episodeLinkStep (([] : List String), "")).1 = episodeLinks sel := by
  unfold Each
  rw [EachFrom_episodeLinkStep]
  simp

theorem episodeLinks_ne_empty (sel : Selection) (l : String) (h : l ∈ episodeLinks sel) :
    l ≠ "" := by
  unfold episodeLinks at h
  rw [List.mem_filterMap] at h
  obtain ⟨n, _, hn⟩ := h
  cases hr : hrefOf n with
  | none => simp [hr] at hn
  | some v =>
    by_cases hv : v = ""
    · simp [hr, hv] at hn
    · simp [hr, hv] at hn
      rw [← hn]; exact hv

theorem episodeLinks_all (sel : Selection)
    (h : ∀ n ∈ sel, ∃ v, hrefOf n = some v ∧ v ≠ "") :
    (episodeLinks sel).map some = sel.map hrefOf := by
  induction sel with
  | nil => rfl
  | cons n ns ih =>
    obtain ⟨v, hv, hne⟩ := h n (List.mem_cons_self n ns)
    have ih1 := ih (fun m hm => h m (List.mem_cons_of_mem n hm))
    unfold episodeLinks at ih1 ⊢
    simp [List.filterMap_cons, hv, hne, ih1]

/-! ## The orchestration loop -/

/-- The loop of `main` on a non-empty list is one run of its body on the first
episode: the body always ends in `break`. -/
theorem mainLoop_cons (env : Env) (u : String) (rest : List String) (w : World) :
    mainLoop env (u :: rest) w = (mainLoopBody env u ("", w)).2.2 := rfl

theorem jobs_mainLoopBody (env : Env) (u : String) (url0 : String) (w : World) :
    jobs (mainLoopBody env u (url0, w)).2.2
      = jobs w ++ [mkJob (downloadRCCShowURL env u w).1.1] := by
  unfold mainLoopBody
  cases herr : (downloadRCCShowURL env u w).1.2 <;>
    simp [herr, jobs_append, jobs, jobs_downloadRCCShowURL]

/-- C1, as stated, fails: in `rejectedEnv` the validation API answers the
identifier 123 with an envelope whose error code is 1; `downloadRCCShowURL`
returns without error, the loop submits a job with the url of that envelope, and
no successful validation response of this environment produced it. -/
theorem main_submits_unvalidated_url :
    (downloadRCCShowURL rejectedEnv "/ep/1" []).1 = (streamURL, none) ∧
    jobs (mainLoop rejectedEnv ["/ep/1"] []) = [mkJob streamURL] ∧
    ¬ ValidatedStream rejectedEnv streamURL := by
  refine ⟨by rfl, by rfl, ?_⟩
  rintro ⟨w, id, res, d, _, _, _, hdec, hsucc, _⟩
  have hd : d = ⟨streamURL, 1⟩ := by
    simp only [rejectedEnv, tableEnv, List.lookup] at hdec
    split at hdec
    · rename_i cfg hl
      split at hl
      · cases hl; cases hdec; rfl
      · cases hl
    · cases hdec
  rw [hd] at hsucc
  exact absurd hsucc.1 (by decide)

/-- C1, amended: when `downloadRCCShowURL` returns without error for the first
episode of the list, the loop of `main` submits one job for it, whose URL is the
string returned; that string is the url field of an envelope decoded from a
status-200 validation response requested for the `idMedia` of the blob of the
episode page (the identifier may be empty, and the error code of the envelope is
not consulted). -/
theorem main_submits_resolved_url (env : Env) (u : String) (rest : List String) (w : World)
    (h : (downloadRCCShowURL env u w).1.2 = none) :
    jobs (mainLoop env (u :: rest) w) = jobs w ++ [mkJob (downloadRCCShowURL env u w).1.1] ∧
    ∃ (w1 : World) (page : Response) (doc : Document) (cfg : RCCEpisodeJSON)
      (res : Response) (d : RCCURLJSON),
      env.Do (debugLog env u w) (getRequest u) = .ok page ∧ page.StatusCode = 200 ∧
      env.NewDocumentFromReader page.Body = .ok doc ∧
      env.Unmarshal (consoleInfo doc) = .ok cfg ∧
      env.Do w1 (getRequest (rccRequestURL cfg.IDMedia)) = .ok res ∧ res.StatusCode = 200 ∧
      env.Decode res.Body = .ok d ∧ (downloadRCCShowURL env u w).1.1 = d.URL :=
  ⟨by rw [mainLoop_cons, jobs_mainLoopBody], downloadRCCShowURL_ok env u w h⟩

/-- Witness for C1 (amended): the end-to-end scenario, where the
first episode resolves to the stream URL. -/
theorem main_submits_resolved_url_witness :
    (downloadRCCShowURL scenarioEnv "/ep/1" []).1.2 = none ∧
    jobs (mainLoop scenarioEnv ["/ep/1", "/ep/2", "/ep/3"] [])
      = jobs [] ++ [mkJob (downloadRCCShowURL scenarioEnv "/ep/1" []).1.1] :=
  ⟨by rfl, (main_submits_resolved_url scenarioEnv "/ep/1" ["/ep/2", "/ep/3"] [] (by rfl)).1⟩

/-- C3 fails on the code: on the three episodes of the end-to-end scenario,
of which the second fails and the third would resolve, the loop of `main` only
requests the first episode and its validation, and submits a single job; on every
list the episodes after the first are never looked at. -/
theorem main_stops_after_first_episode :
    (downloadRCCShowURL scenarioEnv "/ep/2" []).1.2 ≠ none ∧
    (downloadRCCShowURL scenarioEnv "/ep/3" []).1 = (streamURL, none) ∧
    requests (mainLoop scenarioEnv ["/ep/1", "/ep/2", "/ep/3"] [])
      = [getRequest "/ep/1", getRequest (rccRequestURL "123")] ∧
    jobs (mainLoop scenarioEnv ["/ep/1", "/ep/2", "/ep/3"] []) = [mkJob streamURL] ∧
    ∀ (env : Env) (u : String) (rest : List String) (w : World),
      mainLoop env (u :: rest) w = mainLoop env [u] w :=
  ⟨by decide, by rfl, by rfl, by rfl, fun _ _ _ _ => rfl⟩

/-! ## The resolver -/

/-- C2, as stated, fails: the validation response has status 200 and decodes
to an envelope with error code 1 and a url, and `rccMediaURL` returns that url
with a nil error. -/
theorem rccMediaURL_ignores_errorCode :
    rejectedEnv.Do [] (getRequest (rccRequestURL "123")) = .ok ⟨200, "200 OK", "rejected"⟩ ∧
    rejectedEnv.Decode "rejected" = .ok ⟨streamURL, 1⟩ ∧
    (rccMediaURL rejectedEnv "123" []).1 = (streamURL, none) :=
  ⟨by rfl, by rfl, by rfl⟩

/-- C2, amended: for every validation response with status 200 whose body
decodes to an envelope, `rccMediaURL` returns the url field of the envelope with
a nil error, whatever the error code of the envelope. -/
theorem rccMediaURL_returns_url_field (env : Env) (id : String) (w : World) (res : Response)
    (d : RCCURLJSON) (hdo : env.Do w (getRequest (rccRequestURL id)) = .ok res)
    (hs : res.StatusCode = 200) (hdec : env.Decode res.Body = .ok d) :
    (rccMediaURL env id w).1 = (d.URL, none) := by
  rw [rccMediaURL_decoded env id w res d hdo hs hdec]

/-- Witness for C2 (amended): the envelope with error code 1. -/
theorem rccMediaURL_returns_url_field_witness :
    (rccMediaURL rejectedEnv "123" []).1 = ((⟨streamURL, 1⟩ : RCCURLJSON).URL, none) :=
  rccMediaURL_returns_url_field rejectedEnv "123" [] ⟨200, "200 OK", "rejected"⟩
    ⟨streamURL, 1⟩ (by rfl) (by rfl) (by rfl)

/-! ## Discovery -/

/-- C4: for a show page with status 200 whose marker elements all carry a
non-empty href, `listRCCEpisodesFromURL` returns without error the hrefs of the
marker elements, one per element and in document order. -/
theorem listRCCEpisodesFromURL_all_links (env : Env) (url : String) (w : World)
    (res : Response) (doc : Document) (hdo : env.Do w (getRequest url) = .ok res)
    (hs : res.StatusCode = 200) (hdoc : env.NewDocumentFromReader res.Body = .ok doc)
    (hall : ∀ n ∈ Find doc episodeMarker, ∃ v, hrefOf n = some v ∧ v ≠ "") :
    (listRCCEpisodesFromURL env url w).1.2 = none ∧
    (listRCCEpisodesFromURL env url w).1.1.map some = (Find doc episodeMarker).map hrefOf ∧
    (listRCCEpisodesFromURL env url w).1.1.length = (Find doc episodeMarker).length := by
  rw [listRCCEpisodesFromURL_parsed env url w res doc hdo hs hdoc, Each_episodeLinkStep]
  have hmap := episodeLinks_all (Find doc episodeMarker) hall
  refine ⟨rfl, hmap, ?_⟩
  have hlen := congrArg List.length hmap
  simpa using hlen

/-- Witness for C4: the show page of the
end-to-end scenario, with its three anchors. -/
theorem listRCCEpisodesFromURL_all_links_witness :
    (listRCCEpisodesFromURL scenarioEnv "https://show.example/" []).1.2 = none ∧
    (listRCCEpisodesFromURL scenarioEnv "https://show.example/" []).1.1.map some
      = (Find showDoc episodeMarker).map hrefOf ∧
    (listRCCEpisodesFromURL scenarioEnv "https://show.example/" []).1.1.length
      = (Find showDoc episodeMarker).length :=
  listRCCEpisodesFromURL_all_links scenarioEnv "https://show.example/" []
    ⟨200, "200 OK", "show"⟩ showDoc (by rfl) (by rfl) (by rfl) (by decide)

/-- C5: for a show page with status 200, `listRCCEpisodesFromURL` returns
without error the href values of the marker elements in document order, those
that are missing or empty removed; every returned URL is non-empty. -/
theorem listRCCEpisodesFromURL_skips_empty (env : Env) (url : String) (w : World)
    (res : Response) (doc : Document) (hdo : env.Do w (getRequest url) = .ok res)
    (hs : res.StatusCode = 200) (hdoc : env.NewDocumentFromReader res.Body = .ok doc) :
    (listRCCEpisodesFromURL env url w).1 = (episodeLinks (Find doc episodeMarker), none) ∧
    ∀ l ∈ (listRCCEpisodesFromURL env url w).1.1, l ≠ "" := by
  rw [listRCCEpisodesFromURL_parsed env url w res doc hdo hs hdoc, Each_episodeLinkStep]
  exact ⟨rfl, fun l hl => episodeLinks_ne_empty _ l hl⟩

/-- Witness for C5: a page whose marker
elements carry, in order, a link, no href, an empty href, a link and no href. -/
theorem listRCCEpisodesFromURL_skips_empty_witness :
    (listRCCEpisodesFromURL sparseEnv "https://show.example/" []).1
      = (episodeLinks (Find sparseDoc episodeMarker), none) ∧
    episodeLinks (Find sparseDoc episodeMarker) = ["/ep/1", "/ep/2"] ∧
    ∀ l ∈ (listRCCEpisodesFromURL sparseEnv "https://show.example/" []).1.1, l ≠ "" :=
  have h := listRCCEpisodesFromURL_skips_empty sparseEnv "https://show.example/" []
    ⟨200, "200 OK", "show"⟩ sparseDoc (by rfl) (by rfl) (by rfl)
  ⟨h.1, by rfl, h.2⟩

/-! ## Metadata extraction -/

theorem requests_rccMediaURL (env : Env) (id : String) (w : World) :
    requests (rccMediaURL env id w).2 = requests w ++ [getRequest (rccRequestURL id)] := by
  cases hdo : env.Do w (getRequest (rccRequestURL id)) with
  | error e => rw [rccMediaURL_network env id w e hdo]; simp [requests_append, requests]
  | ok res =>
    by_cases hs : res.StatusCode = 200
    · cases hdec : env.Decode res.Body with
      | error e =>
        rw [rccMediaURL_undecoded env id w res e hdo hs hdec]; simp [requests_append, requests]
      | ok d =>
        rw [rccMediaURL_decoded env id w res d hdo hs hdec]; simp [requests_append, requests]
    · rw [rccMediaURL_status env id w res hdo hs]; simp [requests_append, requests]

/-- C6, as stated, fails: the blob `{}` is well-formed and lacks `idMedia`;
`downloadRCCShowURL` sends the validation request for the empty identifier and
returns the stream URL of its answer, with a nil error. -/
theorem downloadRCCShowURL_resolves_empty_id :
    consoleInfo [consoleNode "\x7b\x7d"] = "\x7b\x7d" ∧
    emptyIdEnv.Unmarshal "\x7b\x7d" = .ok ⟨"", ""⟩ ∧
    (downloadRCCShowURL emptyIdEnv "/ep/1" []).1 = (streamURL, none) ∧
    requests (downloadRCCShowURL emptyIdEnv "/ep/1" []).2
      = [getRequest "/ep/1", getRequest (rccRequestURL "")] :=
  ⟨by rfl, by rfl, by rfl, by rfl⟩

/-- C6, amended: for an episode page whose blob is well-formed JSON but lacks
a media identifier, `downloadRCCShowURL` invokes the resolver `rccMediaURL` with
the empty identifier and returns what the resolver returns; the validation request
for the empty identifier is sent. -/
theorem downloadRCCShowURL_empty_id (env : Env) (u : String) (w : World) (page : Response)
    (doc : Document) (cfg : RCCEpisodeJSON)
    (hdo : env.Do (debugLog env u w) (getRequest u) = .ok page)
    (hs : page.StatusCode = 200) (hdoc : env.NewDocumentFromReader page.Body = .ok doc)
    (hcfg : env.Unmarshal (consoleInfo doc) = .ok cfg) (hid : cfg.IDMedia = "") :
    downloadRCCShowURL env u w
      = rccMediaURL env ""
          (debugLog env u w ++ [Event.request (getRequest u)]
            ++ [Event.parseHTML page.Body, Event.unmarshal (consoleInfo doc)]) ∧
    getRequest (rccRequestURL "") ∈ requests (downloadRCCShowURL env u w).2 := by
  have h := downloadRCCShowURL_resolves env u w page doc cfg hdo hs hdoc hcfg
  rw [hid] at h
  refine ⟨h, ?_⟩
  rw [h, requests_rccMediaURL]
  simp

/-- Witness for C6 (amended): the episode page with the blob `{}`. -/
theorem downloadRCCShowURL_empty_id_witness :
    downloadRCCShowURL emptyIdEnv "/ep/1" []
      = rccMediaURL emptyIdEnv ""
          (debugLog emptyIdEnv "/ep/1" [] ++ [Event.request (getRequest "/ep/1")]
            ++ [Event.parseHTML "ep1", Event.unmarshal (consoleInfo [consoleNode "\x7b\x7d"])]) ∧
    getRequest (rccRequestURL "") ∈ requests (downloadRCCShowURL emptyIdEnv "/ep/1" []).2 :=
  downloadRCCShowURL_empty_id emptyIdEnv "/ep/1" [] ⟨200, "200 OK", "ep1"⟩
    [consoleNode "\x7b\x7d"] ⟨"", ""⟩ (by rfl) (by rfl) (by rfl) (by rfl) (by rfl)

/-! ## The status check of the fetch steps -/

/-- A status error of `rccMediaURL` never carries the code 200. -/
theorem rccMediaURL_status_ne (env : Env) (id : String) (w : World) (st : String) :
    (rccMediaURL env id w).1.2 ≠ some (.statusCode 200 st) := by
  cases hdo : env.Do w (getRequest (rccRequestURL id)) with
  | error e => rw [rccMediaURL_network env id w e hdo]; simp
  | ok res =>
    by_cases hs : res.StatusCode = 200
    · cases hdec : env.Decode res.Body with
      | error e => rw [rccMediaURL_undecoded env id w res e hdo hs hdec]; simp
      | ok d => rw [rccMediaURL_decoded env id w res d hdo hs hdec]; simp
    · rw [rccMediaURL_status env id w res hdo hs]
      intro h
      simp only [Option.some.injEq, GoError.statusCode.injEq] at h
      exact hs h.1

theorem listRCCEpisodesFromURL_status_iff (env : Env) (url : String) (w : World)
    (res : Response) (hdo : env.Do w (getRequest url) = .ok res) :
    (listRCCEpisodesFromURL env url w).1.2 = some (.statusCode res.StatusCode res.Status)
      ↔ res.StatusCode ≠ 200 := by
  by_cases hs : res.StatusCode = 200
  · cases hdoc : env.NewDocumentFromReader res.Body with
    | error e => rw [listRCCEpisodesFromURL_unparsed env url w res e hdo hs hdoc]; simp [hs]
    | ok doc => rw [listRCCEpisodesFromURL_parsed env url w res doc hdo hs hdoc]; simp [hs]
  · rw [listRCCEpisodesFromURL_status env url w res hdo hs]; simp [hs]

theorem downloadRCCShowURL_status_iff (env : Env) (u : String) (w : World)
    (res : Response) (hdo : env.Do (debugLog env u w) (getRequest u) = .ok res) :
    (downloadRCCShowURL env u w).1.2 = some (.statusCode res.StatusCode res.Status)
      ↔ res.StatusCode ≠ 200 := by
  by_cases hs : res.StatusCode = 200
  · cases hdoc : env.NewDocumentFromReader res.Body with
    | error e => rw [downloadRCCShowURL_unparsed env u w res e hdo hs hdoc]; simp [hs]
    | ok doc =>
      cases hcfg : env.Unmarshal (consoleInfo doc) with
      | error e => rw [downloadRCCShowURL_undecoded env u w res doc e hdo hs hdoc hcfg]; simp [hs]
      | ok cfg =>
        rw [downloadRCCShowURL_resolves env u w res doc cfg hdo hs hdoc hcfg, hs]
        simp [rccMediaURL_status_ne]
  · rw [downloadRCCShowURL_status env u w res hdo hs]; simp [hs]

theorem rccMediaURL_status_iff (env : Env) (id : String) (w : World)
    (res : Response) (hdo : env.Do w (getRequest (rccRequestURL id)) = .ok res) :
    (rccMediaURL env id w).1.2 = some (.statusCode res.StatusCode res.Status)
      ↔ res.StatusCode ≠ 200 := by
  by_cases hs : res.StatusCode = 200
  · rw [hs]; simp [rccMediaURL_status_ne]
  · rw [rccMediaURL_status env id w res hdo hs]; simp [hs]

/-- C7, as stated, fails: the statuses 201 and 204 are in the success class,
and each of the three fetch steps rejects such a response with the status error,
although its body is the one that resolves under the status 200. -/
theorem fetch_rejects_success_class :
    (listRCCEpisodesFromURL createdEnv "https://show.example/" []).1
      = ([], some (.statusCode 201 "201 Created")) ∧
    (downloadRCCShowURL createdEnv "/ep/1" []).1
      = ("", some (.statusCode 204 "204 No Content")) ∧
    (rccMediaURL createdEnv "123" []).1 = ("", some (.statusCode 201 "201 Created")) ∧
    (rccMediaURL scenarioEnv "123" []).1 = (streamURL, none) :=
  ⟨by rfl, by rfl, by rfl, by rfl⟩

/-- C7, amended: each fetch step (`listRCCEpisodesFromURL`,
`downloadRCCShowURL`, `rccMediaURL`) fails with the status error carrying the code
of its response exactly when the status is not 200, and then returns with nothing
logged after the request: no HTML parsing and no JSON decoding of the body. -/
theorem fetch_status_check (env : Env) (w : World) (url u id : String)
    (r1 r2 r3 : Response)
    (h1 : env.Do w (getRequest url) = .ok r1)
    (h2 : env.Do (debugLog env u w) (getRequest u) = .ok r2)
    (h3 : env.Do w (getRequest (rccRequestURL id)) = .ok r3) :
    (((listRCCEpisodesFromURL env url w).1.2 = some (.statusCode r1.StatusCode r1.Status)
        ↔ r1.StatusCode ≠ 200) ∧
      (r1.StatusCode ≠ 200 →
        (listRCCEpisodesFromURL env url w).2 = w ++ [Event.request (getRequest url)])) ∧
    (((downloadRCCShowURL env u w).1.2 = some (.statusCode r2.StatusCode r2.Status)
        ↔ r2.StatusCode ≠ 200) ∧
      (r2.StatusCode ≠ 200 →
        (downloadRCCShowURL env u w).2 = debugLog env u w ++ [Event.request (getRequest u)])) ∧
    (((rccMediaURL env id w).1.2 = some (.statusCode r3.StatusCode r3.Status)
        ↔ r3.StatusCode ≠ 200) ∧
      (r3.StatusCode ≠ 200 →
        (rccMediaURL env id w).2 = w ++ [Event.request (getRequest (rccRequestURL id))])) :=
  ⟨⟨listRCCEpisodesFromURL_status_iff env url w r1 h1,
      fun hs => by rw [listRCCEpisodesFromURL_status env url w r1 h1 hs]⟩,
    ⟨downloadRCCShowURL_status_iff env u w r2 h2,
      fun hs => by rw [downloadRCCShowURL_status env u w r2 h2 hs]⟩,
    ⟨rccMediaURL_status_iff env id w r3 h3,
      fun hs => by rw [rccMediaURL_status env id w r3 h3 hs]⟩⟩

/-- Witness for C7 (amended): the three responses with the statuses 201,
204 and 201; each step returns the status error and logs the request only. -/
theorem fetch_status_check_witness :
    (listRCCEpisodesFromURL createdEnv "https://show.example/" []).1.2
      = some (.statusCode 201 "201 Created") ∧
    (listRCCEpisodesFromURL createdEnv "https://show.example/" []).2
      = [] ++ [Event.request (getRequest "https://show.example/")] ∧
    (downloadRCCShowURL createdEnv "/ep/1" []).1.2
      = some (.statusCode 204 "204 No Content") ∧
    (rccMediaURL createdEnv "123" []).2
      = [] ++ [Event.request (getRequest (rccRequestURL "123"))] :=
  have h := fetch_status_check createdEnv [] "https://show.example/" "/ep/1" "123"
    ⟨201, "201 Created", "show"⟩ ⟨204, "204 No Content", "ep1"⟩ ⟨201, "201 Created", okBody⟩
    (by rfl) (by rfl) (by rfl)
  ⟨h.1.1.2 (by decide), h.1.2 (by decide), h.2.1.1.2 (by decide), h.2.2.2 (by decide)⟩

/-! ## The validation request -/

/-- C8: for a validation response with status 200 whose body decodes to an
envelope with error code 0 and a non-empty url, `rccMediaURL` returns exactly that
url, with a nil error. -/
theorem rccMediaURL_roundtrip (env : Env) (id : String) (w : World) (res : Response)
    (d : RCCURLJSON) (hdo : env.Do w (getRequest (rccRequestURL id)) = .ok res)
    (hs : res.StatusCode = 200) (hdec : env.Decode res.Body = .ok d)
    (_hcode : d.ErrorCode = 0) (_hurl : d.URL ≠ "") :
    (rccMediaURL env id w).1 = (d.URL, none) := by
  rw [rccMediaURL_decoded env id w res d hdo hs hdec]

/-- Witness for C8: the validation fixture of the spec and
the identifier 123. -/
theorem rccMediaURL_roundtrip_witness :
    okBody = "\x7b\"url\":\"https://stream.example/x.m3u8\",\"errorCode\":0\x7d" ∧
    scenarioEnv.Decode okBody = .ok ⟨"https://stream.example/x.m3u8", 0⟩ ∧
    (rccMediaURL scenarioEnv "123" []).1 = ("https://stream.example/x.m3u8", none) :=
  ⟨by rfl, by rfl,
    rccMediaURL_roundtrip scenarioEnv "123" [] ⟨200, "200 OK", okBody⟩
      ⟨"https://stream.example/x.m3u8", 0⟩ (by rfl) (by rfl) (by rfl) (by rfl) (by decide)⟩

/-- C9, as stated, fails: the request that `rccMediaURL` sends for the
identifier 123 has no `User-Agent` header, whereas the request that `query` builds
for the same URL carries the mobile-browser identification. -/
theorem rccMediaURL_request_without_user_agent :
    (requests (rccMediaURL scenarioEnv "123" []).2).map
        (fun r => headerGet r.Header "User-Agent") = [none] ∧
    headerGet (queryRequest (rccRequestURL "123")).Header "User-Agent"
      = some mobileUserAgent :=
  ⟨by rfl, by rfl⟩

/-- C9, amended: `rccMediaURL` sends one request, made with `http.Get`, on which
the program sets no header, so that it carries no `User-Agent` header of the
program; the mobile-browser identification is set by `query` only. -/
theorem rccMediaURL_request_headers (env : Env) (id : String) (w : World) :
    requests (rccMediaURL env id w).2 = requests w ++ [getRequest (rccRequestURL id)] ∧
    (getRequest (rccRequestURL id)).Header = [] ∧
    headerGet (getRequest (rccRequestURL id)).Header "User-Agent" = none ∧
    ∀ url : String, headerGet (queryRequest url).Header "User-Agent" = some mobileUserAgent :=
  ⟨requests_rccMediaURL env id w, rfl, rfl, fun _ => by rfl⟩

theorem rccRequestURL_inj (id id2 : String) :
    rccRequestURL id = rccRequestURL id2 ↔ id = id2 := by
  constructor
  · intro h
    have hd := congrArg String.data h
    simp only [rccRequestURL, String.data_append] at hd
    exact String.ext (List.append_cancel_left hd)
  · intro h; rw [h]

/-- C10: the URL that `rccMediaURL` requests is the validation endpoint followed
by the fixed query string and the identifier, appended verbatim at the end; two
identifiers give the same URL only if they are equal. -/
theorem rccMediaURL_request_url (env : Env) (id : String) (w : World) :
    requests (rccMediaURL env id w).2
      = requests w ++ [getRequest
          ("https://api.radio-canada.ca/validationMedia/v1/Validation.html"
            ++ "?connectionType=broadband&output=json&multibitrate=true&deviceType=ipad&appCode=medianet&idMedia="
            ++ id)] ∧
    ∀ id2 : String, rccRequestURL id = rccRequestURL id2 ↔ id = id2 :=
  ⟨requests_rccMediaURL env id w, fun id2 => rccRequestURL_inj id id2⟩

/-! ## The first console node -/

theorem consoleInfo_first (doc : Document) (n : Node) (rest : List Node)
    (h : Find doc consoleMarker = n :: rest) :
    consoleInfo doc = (Attr [n] "data-console-info").1 := by
  unfold consoleInfo First
  rw [h]
  rfl

theorem downloadRCCShowURL_withDocument (env : Env) (doc : Document) (u : String) (w : World)
    (page : Response) (hdo : env.Do (debugLog env u w) (getRequest u) = .ok page)
    (hs : page.StatusCode = 200) :
    downloadRCCShowURL (withDocument env doc) u w
      = resolveBlob env u w page (consoleInfo doc) := by
  unfold resolveBlob
  cases hcfg : env.Unmarshal (consoleInfo doc) with
  | error e =>
    rw [downloadRCCShowURL_undecoded (withDocument env doc) u w page doc e hdo hs rfl hcfg]
    rfl
  | ok cfg =>
    rw [downloadRCCShowURL_resolves (withDocument env doc) u w page doc cfg hdo hs rfl hcfg]
    rfl

theorem downloadRCCShowURL_withDocument_congr (env : Env) (doc1 doc2 : Document) (u : String)
    (w : World) (h : consoleInfo doc1 = consoleInfo doc2) :
    downloadRCCShowURL (withDocument env doc1) u w
      = downloadRCCShowURL (withDocument env doc2) u w := by
  cases hdo : env.Do (debugLog env u w) (getRequest u) with
  | error e =>
    rw [downloadRCCShowURL_network (withDocument env doc1) u w e hdo,
      downloadRCCShowURL_network (withDocument env doc2) u w e hdo]
    rfl
  | ok page =>
    by_cases hs : page.StatusCode = 200
    · rw [downloadRCCShowURL_withDocument env doc1 u w page hdo hs,
        downloadRCCShowURL_withDocument env doc2 u w page hdo hs, h]
    · rw [downloadRCCShowURL_status (withDocument env doc1) u w page hdo hs,
        downloadRCCShowURL_status (withDocument env doc2) u w page hdo hs]
      rfl

theorem Attr_congr (n1 n2 : Node) (name : String) (h : n1.attrs = n2.attrs) :
    Attr [n1] name = Attr [n2] name := by
  show (match n1.attrs.find? (fun (kv : String × String) => kv.1 == name) with
    | some kv => (kv.2, true)
    | none => (("", false) : String × Bool))
    = (match n2.attrs.find? (fun (kv : String × String) => kv.1 == name) with
    | some kv => (kv.2, true)
    | none => (("", false) : String × Bool))
  rw [h]

/-- C11: when the nodes of an episode document that match the console marker
are `n1 :: rest1` in document order, the blob that `downloadRCCShowURL` reads is
the `data-console-info` attribute of `n1`; on a page with status 200 the run is the
parse error of that blob or the call of the resolver on its `idMedia`; and a
document whose first console node has the same attributes, with any other later
console nodes, gives the same run: same result and same log. -/
theorem downloadRCCShowURL_first_console_node (env : Env) (u : String) (w : World)
    (doc1 doc2 : Document) (n1 n2 : Node) (rest1 rest2 : List Node)
    (h1 : Find doc1 consoleMarker = n1 :: rest1) (h2 : Find doc2 consoleMarker = n2 :: rest2)
    (hattrs : n1.attrs = n2.attrs) :
    consoleInfo doc1 = (Attr [n1] "data-console-info").1 ∧
    (∀ page : Response, env.Do (debugLog env u w) (getRequest u) = .ok page →
      page.StatusCode = 200 →
      downloadRCCShowURL (withDocument env doc1) u w
        = resolveBlob env u w page (Attr [n1] "data-console-info").1) ∧
    downloadRCCShowURL (withDocument env doc1) u w
      = downloadRCCShowURL (withDocument env doc2) u w := by
  have e1 := consoleInfo_first doc1 n1 rest1 h1
  have e2 := consoleInfo_first doc2 n2 rest2 h2
  refine ⟨e1, ?_, ?_⟩
  · intro page hdo hs
    rw [downloadRCCShowURL_withDocument env doc1 u w page hdo hs, e1]
  · exact downloadRCCShowURL_withDocument_congr env doc1 doc2 u w
      (by rw [e1, e2, Attr_congr n1 n2 "data-console-info" hattrs])

/-- Witness for C11: a page with one console node, and a page whose first
console node has the same attributes, encloses a second console node and is
followed by a third; both resolve the identifier 123, and the identifier 456 and
the malformed blob of the later nodes are never read. -/
theorem downloadRCCShowURL_first_console_node_witness :
    Find oneConsoleDoc consoleMarker = [consoleNode "\x7b\"idMedia\":\"123\"\x7d"] ∧
    (Find manyConsoleDoc consoleMarker).map Node.attrs
      = [[("data-console-info", "\x7b\"idMedia\":\"123\"\x7d")],
          [("data-console-info", "\x7b\"idMedia\":\"456\"\x7d")],
          [("data-console-info", "not json")]] ∧
    consoleInfo manyConsoleDoc = "\x7b\"idMedia\":\"123\"\x7d" ∧
    downloadRCCShowURL (withDocument scenarioEnv manyConsoleDoc) "/ep/1" []
      = downloadRCCShowURL (withDocument scenarioEnv oneConsoleDoc) "/ep/1" [] ∧
    requests (downloadRCCShowURL (withDocument scenarioEnv manyConsoleDoc) "/ep/1" []).2
      = [getRequest "/ep/1", getRequest (rccRequestURL "123")] :=
  have h := downloadRCCShowURL_first_console_node scenarioEnv "/ep/1" [] manyConsoleDoc
    oneConsoleDoc
    (.element "div" ["audio-video-console"] [("data-console-info", "\x7b\"idMedia\":\"123\"\x7d")]
      [consoleNode "\x7b\"idMedia\":\"456\"\x7d"])
    (consoleNode "\x7b\"idMedia\":\"123\"\x7d")
    [consoleNode "\x7b\"idMedia\":\"456\"\x7d", consoleNode "not json"] []
    (by rfl) (by rfl) (by rfl)
  ⟨by rfl, by rfl, h.1, h.2.2, by rfl⟩

end CBC
